import Mathlib

/-!
Verification of the europa1400-networkfix core against its specification.

The program intercepts Winsock calls (`recv`, `send`), a `server.dll`
internal function (`srv_gameStreamReader`), and `GetTickCount`, applying
stability fixes only to calls originating from the `server.dll` module.
We give a shallow embedding of the relevant C functions from
`src/hooks.c` and `src/pattern_matcher.c`:

* pure helpers (`find_pattern_in_memory`, `validate_function_prologue`,
  `is_caller_from_server`) become Lean functions over `Nat`/`Int`/`List Nat`,
  with 32-bit wraparound written explicitly as `% 2^32` where the C uses
  `DWORD` arithmetic;
* the stateful send-retry loop of `hook_send` becomes a recursive function
  parameterised by an oracle giving the outcome of each underlying
  `real_send` attempt, threading the Winsock last-error word explicitly;
* the initialization sequence (`init_server_module`, `create_hooks`,
  `init_hooks`) becomes explicit state passing over a record of the
  global variables, with an event trace recording hook creation and
  enabling.
-/

/-! ## Winsock constants (values from winerror.h / winsock2.h) -/

def WSAEINVAL : Nat := 10014
def WSAEWOULDBLOCK : Nat := 10035
def WSAECONNABORTED : Nat := 10053
def WSAECONNRESET : Nat := 10054
def WSAETIMEDOUT : Nat := 10060

def NO_ERROR : Nat := 0

/-- `SEND_MAX_RETRIES` from hooks.c: maximum retry attempts for send. -/
def SEND_MAX_RETRIES : Nat := 1000

/-! ## Outcome model for the underlying Winsock calls

A call to `real_send` / `real_recv` either fails (`SOCKET_ERROR = -1`
with a Winsock error code left in the thread's last-error word) or
transfers `n ≥ 0` bytes (`n = 0` meaning the peer closed the
connection). The per-attempt outcomes are supplied by an oracle
`Nat → WsOutcome` indexed by the attempt number. -/

inductive WsOutcome where
  | sockError (code : Nat)
  | transferred (n : Nat)
deriving Repr, DecidableEq

/-- Raw result of one underlying Winsock call: the return value and the
last-error word afterwards (an error sets it; success leaves it as it was). -/
def rawCall (o : WsOutcome) (lastErr : Nat) : Int × Nat :=
  match o with
  | WsOutcome.sockError e => (-1, e)
  | WsOutcome.transferred n => ((n : Int), lastErr)

/-- Result of a `hook_send` invocation: return value, final last-error
word, and the number of underlying `real_send` attempts performed. -/
structure SendResult where
  ret : Int
  lastError : Nat
  attempts : Nat
deriving Repr, DecidableEq

/-- Bump the attempt counter of a result (the enclosing iteration made
one more underlying call before the recursive continuation). -/
def succ_attempts (r : SendResult) : SendResult :=
  ⟨r.ret, r.lastError, r.attempts + 1⟩

/-- The retry loop of `hook_send` (hooks.c lines 491-537).

`while (total < len && retry_count < SEND_MAX_RETRIES)`; each iteration
calls `real_send` (outcome `oracle k` for the `k`-th attempt):
would-block increments the retry counter and continues; `WSAECONNRESET`
and `WSAECONNABORTED` return the partial count when positive, else
`SOCKET_ERROR`; any other error returns `SOCKET_ERROR`; a zero-byte
result returns the running total; a positive result advances `total`
and resets the retry counter. After the loop, an exhausted retry
ceiling sets `WSAETIMEDOUT` and reports the partial count when
positive, else `SOCKET_ERROR`; otherwise the total is returned. -/
def send_loop (oracle : Nat → WsOutcome) (len : Int) (k total retry lastErr : Nat) :
    SendResult :=
  if h : (total : Int) < len ∧ retry < SEND_MAX_RETRIES then
    match oracle k with
    | WsOutcome.sockError e =>
      if e = WSAEWOULDBLOCK then
        succ_attempts (send_loop oracle len (k + 1) total (retry + 1) e)
      else if e = WSAECONNRESET ∨ e = WSAECONNABORTED then
        ⟨if 0 < total then (total : Int) else -1, e, 1⟩
      else
        ⟨-1, e, 1⟩
    | WsOutcome.transferred n =>
      if n = 0 then
        ⟨(total : Int), lastErr, 1⟩
      else
        succ_attempts (send_loop oracle len (k + 1) (total + n) 0 lastErr)
  else if SEND_MAX_RETRIES ≤ retry then
    ⟨if 0 < total then (total : Int) else -1, WSAETIMEDOUT, 0⟩
  else
    ⟨(total : Int), lastErr, 0⟩
termination_by (len.toNat - total) * (SEND_MAX_RETRIES + 1) + (SEND_MAX_RETRIES - retry)
decreasing_by
all_goals simp only [SEND_MAX_RETRIES] at *
· omega
· omega

/-- `hook_send` (hooks.c lines 475-537). A non-server caller gets a
plain passthrough call. A server caller first passes parameter
validation (`validate_winsock_params`: null buffer or `len ≤ 0` fails
with `WSAEINVAL`), then runs the retry loop starting from zero bytes
sent and zero retries. -/
def hook_send (fromServer bufNull : Bool) (len : Int) (oracle : Nat → WsOutcome)
    (lastErr : Nat) : SendResult :=
  if fromServer = false then
    match oracle 0 with
    | WsOutcome.sockError e => ⟨-1, e, 1⟩
    | WsOutcome.transferred n => ⟨(n : Int), lastErr, 1⟩
  else if bufNull = true ∨ len ≤ 0 then
    ⟨-1, WSAEINVAL, 0⟩
  else
    send_loop oracle len 0 0 0 lastErr

/-- `hook_recv` (hooks.c lines 415-460). A non-server caller gets a
plain passthrough call with result and last-error state untouched. A
server caller first passes parameter validation, then calls
`real_recv`; a `SOCKET_ERROR` result whose error code is
`WSAEWOULDBLOCK` is converted into a 0-byte success with the last-error
word cleared to `NO_ERROR`; every other result is returned as is. -/
def hook_recv (fromServer bufNull : Bool) (len : Int) (o : WsOutcome) (lastErr : Nat) :
    Int × Nat :=
  if fromServer = false then
    rawCall o lastErr
  else if bufNull = true ∨ len ≤ 0 then
    (-1, WSAEINVAL)
  else
    let r := rawCall o lastErr
    if r.1 = -1 then
      if r.2 = WSAEWOULDBLOCK then (0, NO_ERROR) else r
    else
      r

/-- `hook_srv_gameStreamReader` (hooks.c lines 366-400). The stream
context is modelled as a map from word index to value; the original
function's behaviour is supplied as its return value `origRet` and the
context contents `origCtx` it leaves behind. A null context returns
`-1` without calling the original; otherwise a negative value at
`ctx[0xE]` is overwritten with 0 and a negative return value is
replaced by 0. -/
def hook_srv_gameStreamReader (ctxNull : Bool) (origRet : Int) (origCtx : Nat → Int) :
    Int × (Nat → Int) :=
  if ctxNull = true then
    (-1, origCtx)
  else
    let ctx1 := if origCtx 0xE < 0 then Function.update origCtx 0xE 0 else origCtx
    let ret1 := if origRet < 0 then 0 else origRet
    (ret1, ctx1)

/-- `is_caller_from_server` (hooks.c lines 323-333), over the globals
`g_ServerBase` and `g_ServerSize`: fail closed when the base is still
0 (module not resolved), otherwise a closed-open interval test. -/
def is_caller_from_server (serverBase serverSize caller_addr : Nat) : Bool :=
  if serverBase = 0 then
    false
  else
    decide (serverBase ≤ caller_addr ∧ caller_addr < serverBase + serverSize)

/-! ## Pattern scanner (pattern_matcher.c lines 62-89) -/

/-- The inner loop of `find_pattern_in_memory`: position `i` matches
when no pattern index `j` has an exact-match mask byte (`0xFF`) with a
haystack byte differing from the pattern byte. -/
def maskMatchAt (haystack needle mask : List Nat) (i : Nat) : Bool :=
  (List.range needle.length).all fun j =>
    !(mask.getD j 0 == 0xFF && haystack.getD (i + j) 0 != needle.getD j 0)

/-- The outer loop of `find_pattern_in_memory`: scan positions from `i`
up to `haystack_size - needle_size` inclusive, returning the first
match, or `-1` when none remains. -/
def scan_from (haystack needle mask : List Nat) (i : Nat) : Int :=
  if h : i ≤ haystack.length - needle.length then
    if maskMatchAt haystack needle mask i then
      (i : Int)
    else
      scan_from haystack needle mask (i + 1)
  else
    -1
termination_by haystack.length - needle.length + 1 - i

/-- `find_pattern_in_memory` (pattern_matcher.c lines 62-89). The null
pointer guards of the C version have no counterpart for lists; the size
guards (`needle_size == 0`, `haystack_size < needle_size`) are kept. -/
def find_pattern_in_memory (haystack needle mask : List Nat) : Int :=
  if needle.length = 0 ∨ haystack.length < needle.length then
    -1
  else
    scan_from haystack needle mask 0

/-- Specification-side matching predicate: the pattern occurs at offset
`i` of the haystack, comparing only mask-exact positions. -/
def specMatch (haystack needle mask : List Nat) (i : Nat) : Prop :=
  i + needle.length ≤ haystack.length ∧
    ∀ j, j < needle.length → mask.getD j 0 = 0xFF →
      haystack.getD (i + j) 0 = needle.getD j 0

/-! ## Prologue validator (pattern_matcher.c lines 100-149) -/

/-- 2^32: modulus of the C `DWORD` arithmetic. -/
def UINT32_MOD : Nat := 4294967296

/-- Little-endian 32-bit load of module bytes at `off`
(`*(DWORD *)(func_start + off)`). -/
def le32 (mem : Nat → Nat) (off : Nat) : Nat :=
  mem off + 256 * mem (off + 1) + 65536 * mem (off + 2) + 16777216 * mem (off + 3)

/-- `validate_function_prologue` (pattern_matcher.c lines 100-149).
Module bytes are `mem : Nat → Nat` indexed by RVA. The C computes the
branch targets in `DWORD` arithmetic, so the additions wrap mod 2^32;
a branch-bounds check only runs when the corresponding opcode bytes
(`0F 84` for JZ at offset 18, `0F 85` for JNZ at offset 28) are
present. -/
def validate_function_prologue (mem : Nat → Nat) (rva_offset module_size : Nat) : Bool :=
  if module_size ≤ (rva_offset + 50) % UINT32_MOD then
    false
  else if mem rva_offset ≠ 0x51 then
    false
  else if mem (rva_offset + 18) = 0x0F ∧ mem (rva_offset + 19) = 0x84 ∧
      module_size ≤ (rva_offset + 24 + le32 mem (rva_offset + 20)) % UINT32_MOD then
    false
  else if mem (rva_offset + 28) = 0x0F ∧ mem (rva_offset + 29) = 0x85 ∧
      module_size ≤ (rva_offset + 34 + le32 mem (rva_offset + 30)) % UINT32_MOD then
    false
  else
    true

/-- Two's-complement reading of a 32-bit value, used on the spec side
to speak about negative branch displacements. -/
def sext32 (d : Nat) : Int :=
  if d < 2147483648 then (d : Int) else (d : Int) - 4294967296

/-- Signed JZ branch target: instruction end (`rva + 24`) plus the
sign-extended displacement stored at `rva + 20`. -/
def jz_target_signed (mem : Nat → Nat) (rva : Nat) : Int :=
  (rva : Int) + 24 + sext32 (le32 mem (rva + 20))

/-- Signed JNZ branch target: instruction end (`rva + 34`) plus the
sign-extended displacement stored at `rva + 30`. -/
def jnz_target_signed (mem : Nat → Nat) (rva : Nat) : Int :=
  (rva : Int) + 34 + sext32 (le32 mem (rva + 30))

/-! ## Initialization sequence (hooks.c lines 288-311, 633-725)

The global variables of hooks.c become a record, and the external
outcomes (library load, module information query, version detection,
MinHook calls) become an environment record. An event trace records
which hooks get created and whether enabling happens. -/

/-- The hooks.c globals: `g_HooksInitialized` (here `hooksReady`),
`g_ServerBase`, `g_ServerSize`, `g_server_rva`, `g_hServerDll`
(0 = NULL). -/
structure HookGlobals where
  hooksReady : Bool
  serverBase : Nat
  serverSize : Nat
  server_rva : Nat
  hServerDll : Nat
deriving Repr, DecidableEq

/-- The all-zero state the globals start in. -/
def initialGlobals : HookGlobals := ⟨false, 0, 0, 0, 0⟩

/-- Outcomes of the external calls made during one run of `init_hooks`:
the handle `LoadLibraryA` returns (0 = failure), whether
`GetModuleInformation` succeeds and with which base/size, the RVA the
pattern path of `detect_server_version` produces (0 = failure, covering
the name/hash/pattern sub-failures), and the MinHook statuses. -/
structure InitEnv where
  loadResult : Nat
  moduleInfoOk : Bool
  moduleBase : Nat
  moduleSize : Nat
  detectedRva : Nat
  mhInitOk : Bool
  serverHookCreateOk : Bool
  recvHookOk : Bool
  sendHookOk : Bool
  tickHookOk : Bool
  enableOk : Bool
deriving Repr, DecidableEq

/-- Observable events of the hook lifecycle. -/
inductive HookEvent where
  | serverHookCreated (addr : Nat)
  | apiHookCreated (name : String)
  | hooksEnabled
deriving Repr, DecidableEq

/-- `reset_server_globals` (hooks.c lines 139-149): free the library
handle and zero the base, size and RVA. -/
def reset_server_globals (g : HookGlobals) : HookGlobals :=
  { g with hServerDll := 0, serverBase := 0, serverSize := 0, server_rva := 0 }

/-- `load_server_dll` (hooks.c lines 227-240): store the LoadLibrary
result; succeed exactly when it is non-null. -/
def load_server_dll (env : InitEnv) (g : HookGlobals) : Bool × HookGlobals :=
  (decide (env.loadResult ≠ 0), { g with hServerDll := env.loadResult })

/-- `validate_server_module` (hooks.c lines 248-268): on module-info
failure reset the globals and fail; otherwise record base and size. -/
def validate_server_module (env : InitEnv) (g : HookGlobals) : Bool × HookGlobals :=
  if env.moduleInfoOk = false then
    (false, reset_server_globals g)
  else
    (true, { g with serverBase := env.moduleBase, serverSize := env.moduleSize })

/-- `detect_server_version` (hooks.c lines 61-133): 0 for a null module
handle; otherwise the RVA produced by the pattern-matching path (its
internal failures are folded into `env.detectedRva = 0`). The result is
returned but never stored into `g_server_rva`. -/
def detect_server_version (env : InitEnv) (g : HookGlobals) : Nat :=
  if g.hServerDll = 0 then 0 else env.detectedRva

/-- `init_server_module` (hooks.c lines 288-311): short-circuit when
already fully set up, otherwise load, validate and detect; any failure
(including a 0 from version detection) resets every server global. -/
def init_server_module (env : InitEnv) (g : HookGlobals) : Bool × HookGlobals :=
  if g.hServerDll ≠ 0 ∧ g.serverBase ≠ 0 ∧ g.server_rva ≠ 0 then
    (true, g)
  else
    let r1 := load_server_dll env g
    if r1.1 = false then
      (false, reset_server_globals r1.2)
    else
      let r2 := validate_server_module env r1.2
      if r2.1 = false then
        (false, reset_server_globals r2.2)
      else if detect_server_version env r2.2 = 0 then
        (false, reset_server_globals r2.2)
      else
        (true, r2.2)

/-- `create_hooks` (hooks.c lines 633-665): the server-function hook is
attempted only when the module handle and the resolved RVA are both
non-zero; the three API hooks are attempted regardless, and overall
success requires all four. The trace records each hook actually
created. -/
def create_hooks (env : InitEnv) (g : HookGlobals) : Bool × List HookEvent :=
  let srv : Bool × List HookEvent :=
    if g.hServerDll = 0 ∨ g.server_rva = 0 then
      (false, [])
    else if env.serverHookCreateOk then
      (true, [HookEvent.serverHookCreated (g.hServerDll + g.server_rva)])
    else
      (false, [])
  let rcv : Bool × List HookEvent :=
    if env.recvHookOk then (true, [HookEvent.apiHookCreated "recv"]) else (false, [])
  let snd : Bool × List HookEvent :=
    if env.sendHookOk then (true, [HookEvent.apiHookCreated "send"]) else (false, [])
  let tck : Bool × List HookEvent :=
    if env.tickHookOk then (true, [HookEvent.apiHookCreated "GetTickCount"]) else (false, [])
  (srv.1 && rcv.1 && snd.1 && tck.1, srv.2 ++ rcv.2 ++ snd.2 ++ tck.2)

/-- `init_hooks` (hooks.c lines 673-725): no-op when already ready;
otherwise initialize the server module, MinHook, create all hooks, and
enable them; any failure returns false without enabling. -/
def init_hooks (env : InitEnv) (g : HookGlobals) : Bool × HookGlobals × List HookEvent :=
  if g.hooksReady = true then
    (true, g, [])
  else
    let r1 := init_server_module env g
    if r1.1 = false then
      (false, r1.2, [])
    else if env.mhInitOk = false then
      (false, r1.2, [])
    else
      let r2 := create_hooks env r1.2
      if r2.1 = false then
        (false, r1.2, r2.2)
      else if env.enableOk then
        (true, { r1.2 with hooksReady := true }, r2.2 ++ [HookEvent.hooksEnabled])
      else
        (false, r1.2, r2.2)

/-! ## Concrete oracles used by individual claims -/

/-- C1's outcome sequence: would-block, would-block, 5 bytes,
would-block, 5 bytes. -/
def c1Oracle : Nat → WsOutcome
  | 0 => WsOutcome.sockError WSAEWOULDBLOCK
  | 1 => WsOutcome.sockError WSAEWOULDBLOCK
  | 2 => WsOutcome.transferred 5
  | 3 => WsOutcome.sockError WSAEWOULDBLOCK
  | _ => WsOutcome.transferred 5

/-- C3's counterexample sequence: 5 bytes sent, then `WSAENETDOWN`
(10050), an error that is neither would-block nor a connection
reset/abort. -/
def c3Oracle : Nat → WsOutcome
  | 0 => WsOutcome.transferred 5
  | _ => WsOutcome.sockError 10050

/-- Witness memory for C7's JZ rejection: pattern bytes `0F 84` at
offsets 18-19 and displacement bytes encoding -100 at offsets 20-23,
so the decoded branch target `24 + (-100)` is negative. -/
def c7memJz : Nat → Nat := fun i =>
  if i = 0 then 0x51
  else if i = 18 then 0x0F
  else if i = 19 then 0x84
  else if i = 20 then 156
  else if 21 ≤ i ∧ i ≤ 23 then 255
  else 0

/-- Witness memory for C7's JNZ rejection: pattern bytes `0F 85` at
offsets 28-29 and displacement 4096 at offsets 30-33, putting the
decoded branch target `34 + 4096` beyond a 2048-byte module. -/
def c7memJnz : Nat → Nat := fun i =>
  if i = 0 then 0x51
  else if i = 28 then 0x0F
  else if i = 29 then 0x85
  else if i = 31 then 16
  else 0

/-- Witness memory for C7's acceptance case: the required first byte
and no branch opcodes, inside a module large enough for the
lookahead. -/
def c7memOk : Nat → Nat := fun i =>
  if i = 0 then 0x51 else 0

/-- Witness environment for C9: library load and module query succeed,
every MinHook call would succeed, but offset resolution produced the 0
sentinel. -/
def c9Env : InitEnv := ⟨1, true, 4096, 65536, 0, true, true, true, true, true, true⟩


/-! ## Step lemmas for the send-retry loop -/

theorem send_loop_wb {oracle : Nat → WsOutcome} {len : Int} {k total retry lastErr : Nat}
    (h1 : (total : Int) < len) (h2 : retry < SEND_MAX_RETRIES)
    (hk : oracle k = WsOutcome.sockError WSAEWOULDBLOCK) :
    send_loop oracle len k total retry lastErr =
      succ_attempts (send_loop oracle len (k + 1) total (retry + 1) WSAEWOULDBLOCK) := by
  rw [send_loop]
  rw [dif_pos ⟨h1, h2⟩, hk]
  simp

theorem send_loop_err {oracle : Nat → WsOutcome} {len : Int} {k total retry lastErr e : Nat}
    (h1 : (total : Int) < len) (h2 : retry < SEND_MAX_RETRIES)
    (hk : oracle k = WsOutcome.sockError e) (he : e ≠ WSAEWOULDBLOCK) :
    send_loop oracle len k total retry lastErr =
      if e = WSAECONNRESET ∨ e = WSAECONNABORTED then
        ⟨if 0 < total then (total : Int) else -1, e, 1⟩
      else
        ⟨-1, e, 1⟩ := by
  rw [send_loop]
  rw [dif_pos ⟨h1, h2⟩, hk]
  simp [he]

theorem send_loop_sent {oracle : Nat → WsOutcome} {len : Int} {k total retry lastErr n : Nat}
    (h1 : (total : Int) < len) (h2 : retry < SEND_MAX_RETRIES)
    (hk : oracle k = WsOutcome.transferred n) (hn : n ≠ 0) :
    send_loop oracle len k total retry lastErr =
      succ_attempts (send_loop oracle len (k + 1) (total + n) 0 lastErr) := by
  rw [send_loop]
  rw [dif_pos ⟨h1, h2⟩, hk]
  simp [hn]

theorem send_loop_sent_zero {oracle : Nat → WsOutcome} {len : Int} {k total retry lastErr : Nat}
    (h1 : (total : Int) < len) (h2 : retry < SEND_MAX_RETRIES)
    (hk : oracle k = WsOutcome.transferred 0) :
    send_loop oracle len k total retry lastErr = ⟨(total : Int), lastErr, 1⟩ := by
  rw [send_loop]
  rw [dif_pos ⟨h1, h2⟩, hk]
  simp

theorem send_loop_exit {oracle : Nat → WsOutcome} {len : Int} {k total retry lastErr : Nat}
    (h : ¬((total : Int) < len ∧ retry < SEND_MAX_RETRIES)) :
    send_loop oracle len k total retry lastErr =
      if SEND_MAX_RETRIES ≤ retry then
        ⟨if 0 < total then (total : Int) else -1, WSAETIMEDOUT, 0⟩
      else
        ⟨(total : Int), lastErr, 0⟩ := by
  rw [send_loop]
  rw [dif_neg h]

/-- C1: for a server-caller send of a 10-byte buffer under the outcome
sequence `[would-block, would-block, 5 bytes, would-block, 5 bytes]`,
`hook_send` returns 10 bytes sent with no `WSAETIMEDOUT` error; and in
general each successful partial send continues the loop with the retry
counter reset to zero, so only consecutive would-block outcomes count
toward the ceiling. -/
theorem c1_send_retry_sequence_and_reset :
    ((hook_send true false 10 c1Oracle 0).ret = 10 ∧
      (hook_send true false 10 c1Oracle 0).lastError ≠ WSAETIMEDOUT) ∧
    ∀ (oracle : Nat → WsOutcome) (len : Int) (k total retry lastErr n : Nat),
      (total : Int) < len → retry < SEND_MAX_RETRIES →
      oracle k = WsOutcome.transferred n → 0 < n →
      send_loop oracle len k total retry lastErr =
        succ_attempts (send_loop oracle len (k + 1) (total + n) 0 lastErr) := by
  have hrun : hook_send true false 10 c1Oracle 0 = ⟨10, WSAEWOULDBLOCK, 5⟩ := by
    have hs : hook_send true false 10 c1Oracle 0 = send_loop c1Oracle 10 0 0 0 0 := by
      rw [hook_send]
      norm_num
    rw [hs]
    have e0 : c1Oracle 0 = WsOutcome.sockError WSAEWOULDBLOCK := rfl
    have e1 : c1Oracle 1 = WsOutcome.sockError WSAEWOULDBLOCK := rfl
    have e2 : c1Oracle 2 = WsOutcome.transferred 5 := rfl
    have e3 : c1Oracle 3 = WsOutcome.sockError WSAEWOULDBLOCK := rfl
    have e4 : c1Oracle 4 = WsOutcome.transferred 5 := rfl
    rw [send_loop_wb (by decide) (by decide) e0]
    rw [send_loop_wb (by decide) (by decide) e1]
    rw [send_loop_sent (by decide) (by decide) e2 (by decide)]
    rw [send_loop_wb (by decide) (by decide) e3]
    rw [send_loop_sent (by decide) (by decide) e4 (by decide)]
    rw [send_loop_exit (by decide)]
    decide
  refine ⟨⟨by rw [hrun], by rw [hrun]; decide⟩, ?_⟩
  intro oracle len k total retry lastErr n h1 h2 hk hn
  exact send_loop_sent h1 h2 hk (Nat.pos_iff_ne_zero.mp hn)

/-- C1 witness: the reset step instantiated after the partial success
of attempt 2 (5 of 10 bytes, two would-blocks already counted), and the
concrete run's return value. -/
theorem c1_witness :
    (hook_send true false 10 c1Oracle 0).ret = 10 ∧
    send_loop c1Oracle 10 2 0 2 10035 =
      succ_attempts (send_loop c1Oracle 10 3 (0 + 5) 0 10035) :=
  ⟨c1_send_retry_sequence_and_reset.1.1,
    c1_send_retry_sequence_and_reset.2 c1Oracle 10 2 0 2 10035 5
      (by decide) (by decide) rfl (by decide)⟩

/-- C3 counterexample: with 5 of 10 bytes already sent by the first
attempt, a `WSAENETDOWN` (10050) failure on the second attempt makes
`hook_send` return `SOCKET_ERROR` (-1), not the partial count 5 the
claim requires for every non-would-block error. Only `WSAECONNRESET`
and `WSAECONNABORTED` get the partial-count treatment in the code. -/
theorem c3_counterexample :
    c3Oracle 0 = WsOutcome.transferred 5 ∧
    hook_send true false 10 c3Oracle 0 = ⟨-1, 10050, 2⟩ ∧
    (-1 : Int) ≠ 5 := by
  refine ⟨rfl, ?_, by decide⟩
  have hs : hook_send true false 10 c3Oracle 0 = send_loop c3Oracle 10 0 0 0 0 := by
    rw [hook_send]
    norm_num
  rw [hs]
  have e0 : c3Oracle 0 = WsOutcome.transferred 5 := rfl
  have e1 : c3Oracle 1 = WsOutcome.sockError 10050 := rfl
  rw [send_loop_sent (by decide) (by decide) e0 (by decide)]
  rw [send_loop_err (by decide) (by decide) e1 (by decide)]
  decide

/-- C3 amended: a server-caller send attempt failing with any error
other than would-block stops the loop at once with that error code in
the last-error word; for `WSAECONNRESET` and `WSAECONNABORTED` the
partial byte count is reported when positive (else `SOCKET_ERROR`),
while every other error code yields `SOCKET_ERROR` regardless of how
many bytes were already sent. -/
theorem c3_nonblock_error_stops_loop :
    ∀ (oracle : Nat → WsOutcome) (len : Int) (k total retry lastErr e : Nat),
      (total : Int) < len → retry < SEND_MAX_RETRIES →
      oracle k = WsOutcome.sockError e → e ≠ WSAEWOULDBLOCK →
      send_loop oracle len k total retry lastErr =
        if e = WSAECONNRESET ∨ e = WSAECONNABORTED then
          ⟨if 0 < total then (total : Int) else -1, e, 1⟩
        else
          ⟨-1, e, 1⟩ := by
  intro oracle len k total retry lastErr e h1 h2 hk he
  exact send_loop_err h1 h2 hk he

/-- C3 witness: one generic error (10050) discarding 5 sent bytes, and
one connection-reset error reporting them. -/
theorem c3_witness :
    send_loop (fun _ => WsOutcome.sockError 10050) 10 0 5 0 0 = ⟨-1, 10050, 1⟩ ∧
    send_loop (fun _ => WsOutcome.sockError WSAECONNRESET) 10 0 5 0 0 =
      ⟨5, WSAECONNRESET, 1⟩ := by
  constructor
  · rw [c3_nonblock_error_stops_loop (fun _ => WsOutcome.sockError 10050) 10 0 5 0 0 10050
      (by decide) (by decide) rfl (by decide)]
    decide
  · rw [c3_nonblock_error_stops_loop (fun _ => WsOutcome.sockError WSAECONNRESET) 10 0 5 0 0
      WSAECONNRESET (by decide) (by decide) rfl (by decide)]
    decide

theorem send_loop_all_wb {oracle : Nat → WsOutcome} {len : Int}
    (hall : ∀ j, oracle j = WsOutcome.sockError WSAEWOULDBLOCK) :
    ∀ (d k total retry lastErr : Nat), retry + d = SEND_MAX_RETRIES → (total : Int) < len →
      send_loop oracle len k total retry lastErr =
        ⟨if 0 < total then (total : Int) else -1, WSAETIMEDOUT, d⟩ := by
  intro d
  induction d with
  | zero =>
    intro k total retry lastErr hd h1
    rw [send_loop_exit (by intro hc; omega)]
    rw [if_pos (by omega)]
  | succ d ih =>
    intro k total retry lastErr hd h1
    rw [send_loop_wb h1 (by omega) (hall k)]
    rw [ih (k + 1) total (retry + 1) WSAEWOULDBLOCK (by omega) h1]
    rfl

/-- C4: a server-caller send whose every underlying attempt fails with
would-block exhausts the retry ceiling and ends with `WSAETIMEDOUT` in
the last-error word, reporting `SOCKET_ERROR` from a fresh call (zero
bytes transferred); more generally, from any mid-loop state under
all-would-block outcomes the loop exhausts the remaining retries and
reports the bytes transferred so far — the positive count when nonzero,
else `SOCKET_ERROR` — with `WSAETIMEDOUT`. -/
theorem c4_all_wouldblock_exhausts_ceiling (oracle : Nat → WsOutcome) (len : Int)
    (lastErr : Nat) (hall : ∀ j, oracle j = WsOutcome.sockError WSAEWOULDBLOCK)
    (hlen : 0 < len) :
    hook_send true false len oracle lastErr = ⟨-1, WSAETIMEDOUT, SEND_MAX_RETRIES⟩ ∧
    ∀ (k total retry le2 : Nat), (total : Int) < len → retry ≤ SEND_MAX_RETRIES →
      send_loop oracle len k total retry le2 =
        ⟨if 0 < total then (total : Int) else -1, WSAETIMEDOUT, SEND_MAX_RETRIES - retry⟩ := by
  constructor
  · have hs : hook_send true false len oracle lastErr = send_loop oracle len 0 0 0 lastErr := by
      rw [hook_send]
      rw [if_neg (by simp)]
      rw [if_neg (by simp; omega)]
    rw [hs]
    rw [send_loop_all_wb hall SEND_MAX_RETRIES 0 0 0 lastErr (by omega) (by simpa using hlen)]
    simp
  · intro k total retry le2 h1 h2
    exact send_loop_all_wb hall (SEND_MAX_RETRIES - retry) k total retry le2 (by omega) h1

/-- C4 witness: a 3-byte send under constant would-block outcomes. -/
theorem c4_witness :
    hook_send true false 3 (fun _ => WsOutcome.sockError WSAEWOULDBLOCK) 0 =
      ⟨-1, WSAETIMEDOUT, SEND_MAX_RETRIES⟩ :=
  (c4_all_wouldblock_exhausts_ceiling (fun _ => WsOutcome.sockError WSAEWOULDBLOCK) 3 0
    (fun j => rfl) (by decide)).1

theorem send_loop_attempts_le (oracle : Nat → WsOutcome) (len : Int) :
    ∀ (N k total retry lastErr : Nat),
      (len.toNat - total) * (SEND_MAX_RETRIES + 1) + (SEND_MAX_RETRIES - retry) ≤ N →
      (send_loop oracle len k total retry lastErr).attempts ≤
        (len.toNat - total) * (SEND_MAX_RETRIES + 1) + (SEND_MAX_RETRIES - retry) + 1 := by
  intro N
  induction N with
  | zero =>
    intro k total retry lastErr hN
    simp only [SEND_MAX_RETRIES] at *
    rw [send_loop_exit (by intro hc; omega)]
    split <;> simp
  | succ N ih =>
    intro k total retry lastErr hN
    by_cases hc : (total : Int) < len ∧ retry < SEND_MAX_RETRIES
    · cases ho : oracle k with
      | sockError e =>
        by_cases he : e = WSAEWOULDBLOCK
        · subst he
          rw [send_loop_wb hc.1 hc.2 ho]
          have hb := ih (k + 1) total (retry + 1) WSAEWOULDBLOCK
            (by simp only [SEND_MAX_RETRIES] at *; omega)
          simp only [succ_attempts]
          simp only [SEND_MAX_RETRIES] at *
          omega
        · rw [send_loop_err hc.1 hc.2 ho he]
          split <;> simp
      | transferred n =>
        by_cases hn : n = 0
        · subst hn
          rw [send_loop_sent_zero hc.1 hc.2 ho]
          simp
        · rw [send_loop_sent hc.1 hc.2 ho hn]
          have htot : total < len.toNat := by
            have := hc.1
            omega
          have hb := ih (k + 1) (total + n) 0 lastErr
            (by simp only [SEND_MAX_RETRIES] at *; omega)
          simp only [succ_attempts]
          simp only [SEND_MAX_RETRIES] at *
          omega
    · rw [send_loop_exit hc]
      split <;> simp

/-- C10: the send-retry loop always terminates: for every buffer
length and every infinite per-attempt outcome sequence, the number of
underlying send attempts performed is finite and bounded by
`len * (SEND_MAX_RETRIES + 1) + SEND_MAX_RETRIES + 1` — each success
strictly increases the total (bounded by the buffer length), each
would-block spends one unit of the finite retry budget, and every
other outcome ends the loop at once. -/
theorem c10_send_loop_terminates (oracle : Nat → WsOutcome) (len : Int) :
    (∀ (k total retry lastErr : Nat),
      (send_loop oracle len k total retry lastErr).attempts ≤
        (len.toNat - total) * (SEND_MAX_RETRIES + 1) + (SEND_MAX_RETRIES - retry) + 1) ∧
    (∀ (fromServer bufNull : Bool) (lastErr : Nat),
      (hook_send fromServer bufNull len oracle lastErr).attempts ≤
        len.toNat * (SEND_MAX_RETRIES + 1) + SEND_MAX_RETRIES + 1) := by
  constructor
  · intro k total retry lastErr
    exact send_loop_attempts_le oracle len
      ((len.toNat - total) * (SEND_MAX_RETRIES + 1) + (SEND_MAX_RETRIES - retry))
      k total retry lastErr le_rfl
  · intro fromServer bufNull lastErr
    rw [hook_send]
    by_cases hf : fromServer = false
    · rw [if_pos hf]
      cases oracle 0 <;> simp [SEND_MAX_RETRIES]
    · rw [if_neg hf]
      by_cases hv : bufNull = true ∨ len ≤ 0
      · rw [if_pos hv]
        simp
      · rw [if_neg hv]
        have := send_loop_attempts_le oracle len
          ((len.toNat - 0) * (SEND_MAX_RETRIES + 1) + (SEND_MAX_RETRIES - 0))
          0 0 0 lastErr le_rfl
        simp only [SEND_MAX_RETRIES] at *
        omega

/-- C2: a receive from a target-module caller whose underlying call
fails with would-block is turned into a zero-byte success with the
last-error word cleared to `NO_ERROR`; a receive from any other caller
is forwarded, returning the underlying result and error state
unmodified, whatever they are. -/
theorem c2_recv_wouldblock_translation (len : Int) (hlen : 0 < len) (lastErr : Nat) :
    hook_recv true false len (WsOutcome.sockError WSAEWOULDBLOCK) lastErr = (0, NO_ERROR) ∧
    ∀ (bufNull : Bool) (len2 : Int) (o : WsOutcome) (e : Nat),
      hook_recv false bufNull len2 o e = rawCall o e := by
  constructor
  · rw [hook_recv]
    rw [if_neg (by simp)]
    rw [if_neg (by simp; omega)]
    simp [rawCall]
  · intro bufNull len2 o e
    rw [hook_recv]
    rw [if_pos rfl]

/-- C2 witness: a 4-byte server-caller receive hitting would-block, and
a non-target passthrough under the same underlying outcome. -/
theorem c2_witness :
    hook_recv true false 4 (WsOutcome.sockError WSAEWOULDBLOCK) 7 = (0, NO_ERROR) ∧
    hook_recv false true (-1) (WsOutcome.sockError WSAEWOULDBLOCK) 10035 =
      rawCall (WsOutcome.sockError WSAEWOULDBLOCK) 10035 :=
  ⟨(c2_recv_wouldblock_translation 4 (by decide) 7).1,
    (c2_recv_wouldblock_translation 4 (by decide) 7).2 true (-1)
      (WsOutcome.sockError WSAEWOULDBLOCK) 10035⟩

/-- C5: for a non-null stream context, `hook_srv_gameStreamReader`
leaves both the returned value and the context word at index 0xE
non-negative: negative originals are replaced by 0, non-negative
originals pass through unchanged. -/
theorem c5_stream_reader_nonneg (origRet : Int) (origCtx : Nat → Int) :
    0 ≤ (hook_srv_gameStreamReader false origRet origCtx).1 ∧
    0 ≤ (hook_srv_gameStreamReader false origRet origCtx).2 0xE ∧
    (origRet < 0 → (hook_srv_gameStreamReader false origRet origCtx).1 = 0) ∧
    (0 ≤ origRet → (hook_srv_gameStreamReader false origRet origCtx).1 = origRet) ∧
    (origCtx 0xE < 0 → (hook_srv_gameStreamReader false origRet origCtx).2 0xE = 0) ∧
    (0 ≤ origCtx 0xE → (hook_srv_gameStreamReader false origRet origCtx).2 = origCtx) := by
  simp only [hook_srv_gameStreamReader, Bool.false_eq_true, if_false]
  by_cases h1 : origRet < 0 <;> by_cases h2 : origCtx 0xE < 0 <;>
    simp [h1, h2, Function.update_same] <;> omega

/-- C5 witness: a negative return value and a negative context word are
both fixed to 0; a non-negative pair passes through. -/
theorem c5_witness :
    (hook_srv_gameStreamReader false (-3) (fun _ => -2)).1 = 0 ∧
    (hook_srv_gameStreamReader false (-3) (fun _ => -2)).2 0xE = 0 ∧
    (hook_srv_gameStreamReader false 6 (fun _ => 9)).1 = 6 ∧
    (hook_srv_gameStreamReader false 6 (fun _ => 9)).2 = (fun _ => (9 : Int)) :=
  ⟨(c5_stream_reader_nonneg (-3) (fun _ => -2)).2.2.1 (by decide),
    (c5_stream_reader_nonneg (-3) (fun _ => -2)).2.2.2.2.1 (by decide),
    (c5_stream_reader_nonneg 6 (fun _ => 9)).2.2.2.1 (by decide),
    (c5_stream_reader_nonneg 6 (fun _ => 9)).2.2.2.2.2 (by decide)⟩

/-- C8: the caller classifier returns false for every address while the
server base is the unset value 0; once a nonzero base and a size are
recorded it is exactly the closed-open interval test
`base ≤ addr < base + size`, in particular false at `base + size` and
at `base - 1`. -/
theorem c8_caller_range (base size a : Nat) :
    (base = 0 → is_caller_from_server base size a = false) ∧
    (base ≠ 0 → (is_caller_from_server base size a = true ↔ base ≤ a ∧ a < base + size)) ∧
    is_caller_from_server base size (base + size) = false ∧
    (base ≠ 0 → is_caller_from_server base size (base - 1) = false) := by
  refine ⟨?_, ?_, ?_, ?_⟩
  · intro h
    simp [is_caller_from_server, h]
  · intro h
    simp [is_caller_from_server, h]
  · by_cases h : base = 0 <;> simp [is_caller_from_server, h]
  · intro h
    simp [is_caller_from_server, h]
    omega

theorem maskMatchAt_eq_true_iff (H P M : List Nat) (i : Nat) :
    maskMatchAt H P M i = true ↔
      ∀ j, j < P.length → M.getD j 0 = 0xFF → H.getD (i + j) 0 = P.getD j 0 := by
  rw [maskMatchAt, List.all_eq_true]
  constructor
  · intro h j hj hm
    have h' := h j (List.mem_range.mpr hj)
    rw [Bool.not_eq_true'] at h'
    rw [hm] at h'
    simpa using h'
  · intro h j hj
    by_cases hm : M.getD j 0 = 0xFF
    · rw [hm, h j (List.mem_range.mp hj) hm]
      simp
    · have hm' : (M.getD j 0 == 0xFF) = false := by simpa using hm
      rw [hm']
      simp

theorem specMatch_iff_scan (H P M : List Nat) (i : Nat) (hPH : P.length ≤ H.length) :
    specMatch H P M i ↔ (i ≤ H.length - P.length ∧ maskMatchAt H P M i = true) := by
  rw [maskMatchAt_eq_true_iff]
  unfold specMatch
  constructor
  · intro ⟨h1, h2⟩
    exact ⟨by omega, h2⟩
  · intro ⟨h1, h2⟩
    exact ⟨by omega, h2⟩

theorem scan_from_none (H P M : List Nat) :
    ∀ i, (∀ l, i ≤ l → l ≤ H.length - P.length → maskMatchAt H P M l = false) →
      scan_from H P M i = -1 := by
  have key : ∀ d i, H.length - P.length + 1 - i ≤ d →
      (∀ l, i ≤ l → l ≤ H.length - P.length → maskMatchAt H P M l = false) →
      scan_from H P M i = -1 := by
    intro d
    induction d with
    | zero =>
      intro i hd h
      rw [scan_from]
      rw [dif_neg (by omega)]
    | succ d ih =>
      intro i hd h
      rw [scan_from]
      by_cases hc : i ≤ H.length - P.length
      · rw [dif_pos hc]
        rw [h i le_rfl hc]
        simp only [Bool.false_eq_true, if_false]
        exact ih (i + 1) (by omega) (fun l hl1 hl2 => h l (by omega) hl2)
      · rw [dif_neg hc]
  intro i h
  exact key (H.length - P.length + 1 - i) i le_rfl h

theorem scan_from_found (H P M : List Nat) (j : Nat) (hj : j ≤ H.length - P.length)
    (hm : maskMatchAt H P M j = true) :
    ∀ i, i ≤ j → (∀ l, i ≤ l → l < j → maskMatchAt H P M l = false) →
      scan_from H P M i = (j : Int) := by
  have key : ∀ d i, j - i ≤ d → i ≤ j →
      (∀ l, i ≤ l → l < j → maskMatchAt H P M l = false) →
      scan_from H P M i = (j : Int) := by
    intro d
    induction d with
    | zero =>
      intro i hd hij hmin
      have hij' : i = j := by omega
      subst hij'
      rw [scan_from]
      rw [dif_pos hj]
      simp [hm]
    | succ d ih =>
      intro i hd hij hmin
      by_cases heq : i = j
      · subst heq
        rw [scan_from]
        rw [dif_pos hj]
        simp [hm]
      · rw [scan_from]
        rw [dif_pos (by omega)]
        rw [hmin i le_rfl (by omega)]
        simp only [Bool.false_eq_true, if_false]
        exact ih (i + 1) (by omega) (by omega) (fun l hl1 hl2 => hmin l (by omega) hl2)
  intro i hij hmin
  exact key (j - i) i le_rfl hij hmin

/-- C6: for a non-empty pattern with a mask of equal length, the scan
returns the least offset where every mask-exact position of the
pattern agrees with the haystack, and returns `-1` exactly when no
such offset exists — in particular whenever the haystack is shorter
than the pattern. -/
theorem c6_find_pattern_least_match (H P M : List Nat) (hlen : P.length = M.length)
    (hpos : 0 < P.length) :
    (find_pattern_in_memory H P M = -1 ↔ ∀ i, ¬ specMatch H P M i) ∧
    (∀ i, specMatch H P M i → (∀ j, j < i → ¬ specMatch H P M j) →
      find_pattern_in_memory H P M = (i : Int)) := by
  by_cases hPH : H.length < P.length
  · have hfind : find_pattern_in_memory H P M = -1 := by
      rw [find_pattern_in_memory]
      rw [if_pos (Or.inr hPH)]
    have hnone : ∀ i, ¬ specMatch H P M i := by
      intro i hi
      have := hi.1
      omega
    exact ⟨⟨fun _ => hnone, fun _ => hfind⟩, fun i hi _ => absurd hi (hnone i)⟩
  · push_neg at hPH
    have hguard : find_pattern_in_memory H P M = scan_from H P M 0 := by
      rw [find_pattern_in_memory]
      rw [if_neg (by push_neg; omega)]
    constructor
    · constructor
      · intro hfind i hi
        rw [specMatch_iff_scan H P M i hPH] at hi
        have hex : ∃ n, n ≤ H.length - P.length ∧ maskMatchAt H P M n = true := ⟨i, hi⟩
        have hQj := Nat.find_spec hex
        have hleast : scan_from H P M 0 = ((Nat.find hex : Nat) : Int) := by
          apply scan_from_found H P M (Nat.find hex) hQj.1 hQj.2 0 (Nat.zero_le _)
          intro l _ hlj
          have hnl := Nat.find_min hex hlj
          cases hml : maskMatchAt H P M l
          · rfl
          · exact absurd ⟨by omega, hml⟩ hnl
        rw [hguard, hleast] at hfind
        omega
      · intro hnone
        rw [hguard]
        apply scan_from_none
        intro l _ hl
        cases hml : maskMatchAt H P M l
        · rfl
        · exact absurd ((specMatch_iff_scan H P M l hPH).mpr ⟨hl, hml⟩) (hnone l)
    · intro i hi hmin
      rw [hguard]
      rw [specMatch_iff_scan H P M i hPH] at hi
      apply scan_from_found H P M i hi.1 hi.2 0 (Nat.zero_le i)
      intro l _ hli
      cases hml : maskMatchAt H P M l
      · rfl
      · exact absurd ((specMatch_iff_scan H P M l hPH).mpr ⟨by omega, hml⟩) (hmin l hli)

/-- C6 witness: the pattern `[2]` under an exact mask occurs first at
offset 1 of `[1, 2, 3]`, and absence in `[9]` is reported as `-1`. -/
theorem c6_witness :
    find_pattern_in_memory [1, 2, 3] [2] [255] = 1 ∧
    (find_pattern_in_memory [9] [2] [255] = -1 ↔ ∀ i, ¬ specMatch [9] [2] [255] i) :=
  ⟨(c6_find_pattern_least_match [1, 2, 3] [2] [255] rfl (by decide)).2 1
      ⟨by decide, fun j hj _ => by
        have hj0 : j = 0 := by simp at hj; omega
        subst hj0
        decide⟩
      (fun j hj hs => by
        have hj0 : j = 0 := by omega
        subst hj0
        exact absurd (hs.2 0 (by decide) (by decide)) (by decide)),
    (c6_find_pattern_least_match [9] [2] [255] rfl (by decide)).1⟩

theorem le32_lt (mem : Nat → Nat) (off : Nat) (hb : ∀ i, mem i < 256) :
    le32 mem off < UINT32_MOD := by
  have h0 := hb off
  have h1 := hb (off + 1)
  have h2 := hb (off + 2)
  have h3 := hb (off + 3)
  unfold le32 UINT32_MOD
  omega

/-- C7: prologue validation returns false when the candidate offset
plus the 50-byte lookahead reaches the module size; returns false when
the JZ (bytes `0F 84` at offset 18) or JNZ (bytes `0F 85` at offset 28)
displacement decodes, as a 32-bit two's-complement value, to a branch
target that is negative or not below the module size, even when the
opcode bytes agree; and returns true only when the lookahead check, the
first-byte check and both branch-target checks pass. The bounds
`size ≤ 2^31` and `rva < 2^31` reflect the 32-bit address space the C
`DWORD` arithmetic lives in. -/
theorem c7_validate_prologue (mem : Nat → Nat) (rva size : Nat) (hb : ∀ i, mem i < 256) :
    (rva + 50 < UINT32_MOD → size ≤ rva + 50 →
      validate_function_prologue mem rva size = false) ∧
    (size ≤ 2147483648 → rva < 2147483648 →
      mem (rva + 18) = 0x0F → mem (rva + 19) = 0x84 →
      (jz_target_signed mem rva < 0 ∨ (size : Int) ≤ jz_target_signed mem rva) →
      validate_function_prologue mem rva size = false) ∧
    (size ≤ 2147483648 → rva < 2147483648 →
      mem (rva + 28) = 0x0F → mem (rva + 29) = 0x85 →
      (jnz_target_signed mem rva < 0 ∨ (size : Int) ≤ jnz_target_signed mem rva) →
      validate_function_prologue mem rva size = false) ∧
    (validate_function_prologue mem rva size = true →
      (rva + 50) % UINT32_MOD < size ∧ mem rva = 0x51 ∧
      (mem (rva + 18) = 0x0F → mem (rva + 19) = 0x84 →
        (rva + 24 + le32 mem (rva + 20)) % UINT32_MOD < size) ∧
      (mem (rva + 28) = 0x0F → mem (rva + 29) = 0x85 →
        (rva + 34 + le32 mem (rva + 30)) % UINT32_MOD < size)) := by
  refine ⟨?_, ?_, ?_, ?_⟩
  · intro h32 hge
    rw [validate_function_prologue]
    rw [if_pos (show size ≤ (rva + 50) % UINT32_MOD by rw [Nat.mod_eq_of_lt h32]; exact hge)]
  · intro hsize hrva h18 h19 htgt
    by_cases hc1 : size ≤ (rva + 50) % UINT32_MOD
    · rw [validate_function_prologue, if_pos hc1]
    · have h50 : rva + 50 < UINT32_MOD := by unfold UINT32_MOD; omega
      have hc1' : rva + 50 < size := by rw [Nat.mod_eq_of_lt h50] at hc1; omega
      by_cases hc2 : mem rva ≠ 0x51
      · rw [validate_function_prologue, if_neg hc1, if_pos hc2]
      · have hd := le32_lt mem (rva + 20) hb
        have hjz : size ≤ (rva + 24 + le32 mem (rva + 20)) % UINT32_MOD := by
          unfold jz_target_signed sext32 at htgt
          unfold UINT32_MOD at *
          by_cases hdlt : le32 mem (rva + 20) < 2147483648
          · rw [if_pos hdlt] at htgt
            omega
          · rw [if_neg hdlt] at htgt
            omega
        rw [validate_function_prologue, if_neg hc1, if_neg hc2, if_pos ⟨h18, h19, hjz⟩]
  · intro hsize hrva h28 h29 htgt
    by_cases hc1 : size ≤ (rva + 50) % UINT32_MOD
    · rw [validate_function_prologue, if_pos hc1]
    · have h50 : rva + 50 < UINT32_MOD := by unfold UINT32_MOD; omega
      have hc1' : rva + 50 < size := by rw [Nat.mod_eq_of_lt h50] at hc1; omega
      by_cases hc2 : mem rva ≠ 0x51
      · rw [validate_function_prologue, if_neg hc1, if_pos hc2]
      · by_cases hc3 : mem (rva + 18) = 0x0F ∧ mem (rva + 19) = 0x84 ∧
            size ≤ (rva + 24 + le32 mem (rva + 20)) % UINT32_MOD
        · rw [validate_function_prologue, if_neg hc1, if_neg hc2, if_pos hc3]
        · have hd := le32_lt mem (rva + 30) hb
          have hjnz : size ≤ (rva + 34 + le32 mem (rva + 30)) % UINT32_MOD := by
            unfold jnz_target_signed sext32 at htgt
            unfold UINT32_MOD at *
            by_cases hdlt : le32 mem (rva + 30) < 2147483648
            · rw [if_pos hdlt] at htgt
              omega
            · rw [if_neg hdlt] at htgt
              omega
          rw [validate_function_prologue, if_neg hc1, if_neg hc2, if_neg hc3,
            if_pos ⟨h28, h29, hjnz⟩]
  · intro hv
    rw [validate_function_prologue] at hv
    by_cases hc1 : size ≤ (rva + 50) % UINT32_MOD
    · rw [if_pos hc1] at hv
      exact absurd hv (by simp)
    rw [if_neg hc1] at hv
    by_cases hc2 : mem rva ≠ 0x51
    · rw [if_pos hc2] at hv
      exact absurd hv (by simp)
    rw [if_neg hc2] at hv
    by_cases hc3 : mem (rva + 18) = 0x0F ∧ mem (rva + 19) = 0x84 ∧
        size ≤ (rva + 24 + le32 mem (rva + 20)) % UINT32_MOD
    · rw [if_pos hc3] at hv
      exact absurd hv (by simp)
    rw [if_neg hc3] at hv
    by_cases hc4 : mem (rva + 28) = 0x0F ∧ mem (rva + 29) = 0x85 ∧
        size ≤ (rva + 34 + le32 mem (rva + 30)) % UINT32_MOD
    · rw [if_pos hc4] at hv
      exact absurd hv (by simp)
    refine ⟨by omega, not_not.mp hc2, ?_, ?_⟩
    · intro h18 h19
      by_contra hx
      exact hc3 ⟨h18, h19, by omega⟩
    · intro h28 h29
      by_contra hx
      exact hc4 ⟨h28, h29, by omega⟩

/-- C7 witness: the lookahead rejection at size 40, the negative JZ
target rejection, the out-of-module JNZ target rejection, and the
conclusions of the acceptance characterization on a passing input. -/
theorem c7_witness :
    validate_function_prologue (fun _ => 0) 0 40 = false ∧
    validate_function_prologue c7memJz 0 2048 = false ∧
    validate_function_prologue c7memJnz 0 2048 = false ∧
    ((0 + 50) % UINT32_MOD < 100 ∧ c7memOk 0 = 0x51 ∧
      (c7memOk (0 + 18) = 0x0F → c7memOk (0 + 19) = 0x84 →
        (0 + 24 + le32 c7memOk (0 + 20)) % UINT32_MOD < 100) ∧
      (c7memOk (0 + 28) = 0x0F → c7memOk (0 + 29) = 0x85 →
        (0 + 34 + le32 c7memOk (0 + 30)) % UINT32_MOD < 100)) :=
  ⟨(c7_validate_prologue (fun _ => 0) 0 40 (fun i => by show (0:Nat) < 256; decide)).1 (by decide) (by decide),
    (c7_validate_prologue c7memJz 0 2048
        (fun i => by unfold c7memJz; split_ifs <;> decide)).2.1
      (by decide) (by decide) (by decide) (by decide) (Or.inl (by decide)),
    (c7_validate_prologue c7memJnz 0 2048
        (fun i => by unfold c7memJnz; split_ifs <;> decide)).2.2.1
      (by decide) (by decide) (by decide) (by decide) (Or.inr (by decide)),
    (c7_validate_prologue c7memOk 0 100
        (fun i => by unfold c7memOk; split_ifs <;> decide)).2.2.2 (by decide)⟩

/-- C8 witness: unset state rejects address 0; a set range (5, 3)
accepts 6 and rejects both endpoints outside the interval. -/
theorem c8_witness :
    is_caller_from_server 0 10 0 = false ∧
    is_caller_from_server 5 3 6 = true ∧
    is_caller_from_server 5 3 8 = false ∧
    is_caller_from_server 5 3 4 = false :=
  ⟨(c8_caller_range 0 10 0).1 rfl,
    ((c8_caller_range 5 3 6).2.1 (by decide)).mpr (by decide),
    (c8_caller_range 5 3 8).2.2.1,
    (c8_caller_range 5 3 4).2.2.2 (by decide)⟩

theorem init_hooks_zero_rva (env : InitEnv) (h : env.detectedRva = 0) :
    init_hooks env initialGlobals = (false, initialGlobals, []) := by
  rw [init_hooks]
  rw [if_neg (by simp [initialGlobals])]
  have hism : init_server_module env initialGlobals = (false, initialGlobals) := by
    rw [init_server_module]
    rw [if_neg (by simp [initialGlobals])]
    by_cases hl : env.loadResult = 0
    · simp [load_server_dll, initialGlobals, hl, reset_server_globals]
    · by_cases hm : env.moduleInfoOk
      · simp [load_server_dll, validate_server_module, detect_server_version,
          reset_server_globals, initialGlobals, hl, hm, h]
      · simp [load_server_dll, validate_server_module, reset_server_globals,
          initialGlobals, hl, hm]
  rw [hism]
  simp

/-- C9: when offset resolution yields the 0 sentinel, `init_hooks`
from the fresh state fails and leaves every server global (handle,
base, size, resolved RVA) at its initial zero value with the
ready flag unset; no hook is created and the enable step never
happens (empty event trace); moreover `create_hooks` never creates
the server-function hook while the resolved RVA is 0, in any state. -/
theorem c9_zero_offset_aborts (env : InitEnv) (h : env.detectedRva = 0) :
    (init_hooks env initialGlobals).1 = false ∧
    (init_hooks env initialGlobals).2.1 = initialGlobals ∧
    (init_hooks env initialGlobals).2.2 = [] ∧
    HookEvent.hooksEnabled ∉ (init_hooks env initialGlobals).2.2 ∧
    (∀ (env' : InitEnv) (g' : HookGlobals), g'.server_rva = 0 →
      ∀ a, HookEvent.serverHookCreated a ∉ (create_hooks env' g').2) := by
  have key := init_hooks_zero_rva env h
  refine ⟨by rw [key], by rw [key], by rw [key], by rw [key]; simp, ?_⟩
  intro env' g' hrva a
  rw [create_hooks]
  simp only [hrva, or_true, if_true]
  split_ifs <;> simp

/-- C9 witness: the concrete environment `c9Env` (everything healthy
except a 0 resolved offset) fails initialization, ends in the
uninitialized state, never enables hooks, and creates no server hook at
offset 0. -/
theorem c9_witness :
    (init_hooks c9Env initialGlobals).1 = false ∧
    (init_hooks c9Env initialGlobals).2.1 = initialGlobals ∧
    HookEvent.hooksEnabled ∉ (init_hooks c9Env initialGlobals).2.2 ∧
    HookEvent.serverHookCreated 5 ∉ (create_hooks c9Env initialGlobals).2 :=
  ⟨(c9_zero_offset_aborts c9Env rfl).1,
    (c9_zero_offset_aborts c9Env rfl).2.1,
    (c9_zero_offset_aborts c9Env rfl).2.2.2.1,
    (c9_zero_offset_aborts c9Env rfl).2.2.2.2 c9Env initialGlobals rfl 5⟩
